import Mathlib

/-
Verification of the teable-mcp-server tool-invocation adapter.

The repository contains two near-identical server variants:
  * `src/src/index.ts`   — the env-configured variant: the bearer token comes
    from the `TEABLE_API_KEY` environment variable and the caller supplies a
    required `tableId` argument.
  * `src/unnamed/part_000` — the fixed-configuration variant: both the bearer
    token and the table id are hardcoded constants and no argument is required.

Both variants register one tool, `query_teable`, validate its arguments with a
type-guard, perform one `axios.get` against the Teable API and format the
outcome as an MCP tool result.  We embed the argument values as a JSON value
type with JavaScript `typeof`/truthiness semantics, and the call handler as a
pure function from the (mocked) HTTP outcome and the incoming request to the
produced outcome together with the outbound HTTP request (if any was made).
-/

namespace TeableMCP

/-- JSON values, the dynamic shape of `request.params.arguments` and of HTTP
response bodies.  Numbers are modelled as integers (every numeric literal
relevant to this server is integral). -/
inductive Json where
  | null : Json
  | bool (b : Bool) : Json
  | num (n : Int) : Json
  | str (s : String) : Json
  | arr (elems : List Json) : Json
  | obj (fields : List (String × Json)) : Json
deriving Repr

/-- JavaScript `typeof` on a defined value (`typeof null`, arrays and plain
objects are all `"object"`). -/
def jsTypeof : Json → String
  | Json.null => "object"
  | Json.bool _ => "boolean"
  | Json.num _ => "number"
  | Json.str _ => "string"
  | Json.arr _ => "object"
  | Json.obj _ => "object"

/-- JavaScript truthiness of a defined value. -/
def jsTruthy : Json → Bool
  | Json.null => false
  | Json.bool b => b
  | Json.num n => !(n == 0)
  | Json.str s => !(s == "")
  | Json.arr _ => true
  | Json.obj _ => true

/-- Truthiness of a possibly-undefined value (`none` models `undefined`). -/
def optTruthy (o : Option Json) : Bool :=
  match o with
  | some v => jsTruthy v
  | none => false

/-- Property lookup (`obj[k]`), `none` when the property is absent or the
value is not an object.  The property names used by this server are never
numeric, so array index access never fires for them. -/
def jsGet (j : Json) (k : String) : Option Json :=
  match j with
  | Json.obj fields => (fields.find? (fun p => p.1 == k)).map Prod.snd
  | _ => none

/-- The JavaScript `k in j` test for the property names this server uses. -/
def jsHasProp (j : Json) (k : String) : Bool :=
  match j with
  | Json.obj fields => fields.any (fun p => p.1 == k)
  | _ => false

/-- `typeof j[k]`, which is `"undefined"` on an absent property. -/
def jsTypeofField (j : Json) (k : String) : String :=
  match jsGet j k with
  | some v => jsTypeof v
  | none => "undefined"

/-- `j == Json.null` as a boolean (the `args !== null` test). -/
def jsIsNull : Json → Bool
  | Json.null => true
  | _ => false

/-- Rendering of a possibly-absent string in a template literal:
`` `Bearer ${API_KEY}` `` prints `"undefined"` when the variable is unset. -/
def renderOptString (o : Option String) : String :=
  match o with
  | some s => s
  | none => "undefined"

/-! ### encodeURIComponent -/

/-- Uppercase hexadecimal digit, as produced by `encodeURIComponent`. -/
def hexDigitUpper (n : Nat) : Char :=
  if n < 10 then Char.ofNat (48 + n) else Char.ofNat (55 + n)

/-- Percent-escape of one byte: `%` followed by two uppercase hex digits. -/
def percentByte (b : Nat) : List Char :=
  [Char.ofNat 37, hexDigitUpper (b / 16 % 16), hexDigitUpper (b % 16)]

/-- UTF-8 byte sequence of a scalar value. -/
def utf8Bytes (c : Char) : List Nat :=
  let n := c.toNat
  if n < 128 then [n]
  else if n < 2048 then [192 + n / 64, 128 + n % 64]
  else if n < 65536 then [224 + n / 4096, 128 + n / 64 % 64, 128 + n % 64]
  else [240 + n / 262144, 128 + n / 4096 % 64, 128 + n / 64 % 64, 128 + n % 64]

/-- The characters `encodeURIComponent` leaves unescaped:
`A–Z a–z 0–9 - _ . ! ~ * ' ( )`. -/
def isUriUnescaped (c : Char) : Bool :=
  (65 ≤ c.toNat && c.toNat ≤ 90) ||
  (97 ≤ c.toNat && c.toNat ≤ 122) ||
  (48 ≤ c.toNat && c.toNat ≤ 57) ||
  c.toNat == 45 || c.toNat == 95 || c.toNat == 46 || c.toNat == 33 ||
  c.toNat == 126 || c.toNat == 42 || c.toNat == 39 || c.toNat == 40 ||
  c.toNat == 41

/-- `encodeURIComponent` on one character. -/
def encodeUriChar (c : Char) : List Char :=
  if isUriUnescaped c then [c] else (utf8Bytes c).flatMap percentByte

/-- JavaScript `encodeURIComponent` (Lean `Char` excludes lone surrogates, so
the `URIError` case cannot arise). -/
def encodeURIComponent (s : String) : String :=
  String.mk (s.data.flatMap encodeUriChar)

/-! ### JSON.stringify -/

/-- Lowercase hexadecimal digit, used in `\u00XX` string escapes. -/
def hexDigitLower (n : Nat) : Char :=
  if n < 10 then Char.ofNat (48 + n) else Char.ofNat (87 + n)

/-- `JSON.stringify` escaping of one character inside a string literal. -/
def jsEscapeChar (c : Char) : String :=
  if c.toNat == 34 then "\\\""
  else if c.toNat == 92 then "\\\\"
  else if c.toNat == 8 then "\\b"
  else if c.toNat == 9 then "\\t"
  else if c.toNat == 10 then "\\n"
  else if c.toNat == 12 then "\\f"
  else if c.toNat == 13 then "\\r"
  else if c.toNat < 32 then
    "\\u00" ++ String.mk [hexDigitLower (c.toNat / 16), hexDigitLower (c.toNat % 16)]
  else String.singleton c

/-- A JSON string literal with its quotes and escapes. -/
def jsQuote (s : String) : String :=
  "\"" ++ String.join (s.data.map jsEscapeChar) ++ "\""

mutual

/-- Compact `JSON.stringify(v)` (no space argument). -/
def jsonStringify : Json → String
  | Json.null => "null"
  | Json.bool b => if b then "true" else "false"
  | Json.num n => toString n
  | Json.str s => jsQuote s
  | Json.arr elems => "[" ++ String.intercalate "," (jsonStringifyList elems) ++ "]"
  | Json.obj fields => "\x7b" ++ String.intercalate "," (jsonStringifyFields fields) ++ "\x7d"

def jsonStringifyList : List Json → List String
  | [] => []
  | v :: vs => jsonStringify v :: jsonStringifyList vs

def jsonStringifyFields : List (String × Json) → List String
  | [] => []
  | kv :: kvs => (jsQuote kv.1 ++ ":" ++ jsonStringify kv.2) :: jsonStringifyFields kvs

end

/-- `n` spaces. -/
def indentStr (n : Nat) : String :=
  String.mk (List.replicate n ' ')

mutual

/-- `JSON.stringify(v, null, 2)`: pretty printing with a two-space indent.
`ind` is the indentation of the surrounding context. -/
def jsonStringifyP (ind : Nat) : Json → String
  | Json.null => "null"
  | Json.bool b => if b then "true" else "false"
  | Json.num n => toString n
  | Json.str s => jsQuote s
  | Json.arr [] => "[]"
  | Json.arr (v :: vs) =>
    "[\n" ++ String.intercalate ",\n" (jsonStringifyPList (ind + 2) (v :: vs)) ++
    "\n" ++ indentStr ind ++ "]"
  | Json.obj [] => "\x7b\x7d"
  | Json.obj (kv :: kvs) =>
    "\x7b\n" ++ String.intercalate ",\n" (jsonStringifyPFields (ind + 2) (kv :: kvs)) ++
    "\n" ++ indentStr ind ++ "\x7d"

def jsonStringifyPList (ind : Nat) : List Json → List String
  | [] => []
  | v :: vs => (indentStr ind ++ jsonStringifyP ind v) :: jsonStringifyPList ind vs

def jsonStringifyPFields (ind : Nat) : List (String × Json) → List String
  | [] => []
  | kv :: kvs =>
    (indentStr ind ++ jsQuote kv.1 ++ ": " ++ jsonStringifyP ind kv.2) ::
    jsonStringifyPFields ind kvs

end

/-- `JSON.stringify(v, null, 2)` at top level. -/
def jsonStringifyPretty (v : Json) : String :=
  jsonStringifyP 0 v

/-- Substring containment: `sub` occurs contiguously inside `s`. -/
def strContains (s sub : String) : Prop :=
  sub.data <:+: s.data

instance (s sub : String) : Decidable (strContains s sub) :=
  List.decidableInfix sub.data s.data

/-! ### The MCP protocol model -/

/-- One property of the advertised input schema. -/
structure SchemaProperty where
  name : String
  type : String
  description : String
  minimum : Option Int
deriving Repr

/-- The advertised input schema of a tool. -/
structure InputSchema where
  type : String
  properties : List SchemaProperty
  required : List String
deriving Repr

/-- One entry of the tool list (`ListToolsRequestSchema` response). -/
structure ToolDescriptor where
  name : String
  description : String
  inputSchema : InputSchema
deriving Repr

/-- The MCP error codes this server throws. -/
inductive ErrorCode where
  | MethodNotFound : ErrorCode
  | InvalidParams : ErrorCode
deriving Repr, DecidableEq

/-- A thrown `McpError`. -/
structure McpError where
  code : ErrorCode
  message : String
deriving Repr, DecidableEq

/-- One `{ type: 'text', text }` content block. -/
structure TextContent where
  type : String
  text : String
deriving Repr, DecidableEq

/-- The tool result object returned by the call handler.  `isError := none`
models the field being absent from the returned object literal. -/
structure ToolResult where
  content : List TextContent
  isError : Option Bool
deriving Repr, DecidableEq

/-- The outbound HTTP request handed to axios: method, url, headers and the
`params` object (rendered as query parameters), plus an optional raw body for
POST-style calls. -/
structure HttpRequest where
  method : String
  url : String
  headers : List (String × String)
  queryParams : List (String × Json)
  body : Option String
deriving Repr

/-- The outcome of the one axios call, supplied by the (mocked) network:
a 2xx response carrying `response.data`, an axios error (any non-2xx status
or transport failure, for which `axios.isAxiosError` is true) carrying
`error.response?.data` (`none` when there is no response or no data) and
`error.message`, or a non-axios thrown value. -/
inductive AxiosOutcome where
  | success (data : Json) : AxiosOutcome
  | axiosError (respData : Option Json) (message : String) : AxiosOutcome
  | otherError (e : String) : AxiosOutcome

/-- An incoming `CallToolRequestSchema` request: `request.params.name` and
`request.params.arguments` (`none` models an absent/undefined arguments
field). -/
structure ToolRequest where
  name : String
  arguments : Option Json

/-- What the call handler does: return a tool result, throw an `McpError`,
or let a non-axios error propagate unchanged. -/
inductive InvokeOutcome where
  | result (r : ToolResult) : InvokeOutcome
  | mcpError (e : McpError) : InvokeOutcome
  | thrown (e : String) : InvokeOutcome
deriving Repr

/-! ### The env-configured variant (`src/src/index.ts`) -/

namespace EnvVariant

/-- The tool list returned for `ListToolsRequestSchema` (lines 82–112). -/
def listTools : List ToolDescriptor :=
  [{ name := "query_teable",
     description := "Fragt Daten aus einer Teable-Datenbanktabelle ab",
     inputSchema :=
       { type := "object",
         properties :=
           [{ name := "tableId", type := "string",
              description := "Die ID der Teable-Tabelle (z.B. tblMIKjgQRIvgq1NrBZ)",
              minimum := none },
            { name := "filter", type := "string",
              description := "Optional, Filterkriterien im JSON-Format",
              minimum := none },
            { name := "sort", type := "string",
              description := "Optional, Sortierkriterien im JSON-Format",
              minimum := none },
            { name := "limit", type := "number",
              description := "Optional, Maximale Anzahl der zurückgegebenen Datensätze",
              minimum := some 1 }],
         required := ["tableId"] } }]

/-- The type guard `isValidQueryTeableArgs` (lines 36–47): the arguments are
an object, not null, `tableId` is present with string type, and each present
optional field has its declared type. -/
def isValidQueryTeableArgs (args : Option Json) : Bool :=
  match args with
  | none => false
  | some j =>
    jsTypeof j == "object" &&
    !(jsIsNull j) &&
    (jsHasProp j "tableId" && jsTypeofField j "tableId" == "string") &&
    (!(jsHasProp j "filter") || jsTypeofField j "filter" == "string") &&
    (!(jsHasProp j "sort") || jsTypeofField j "sort" == "string") &&
    (!(jsHasProp j "limit") || jsTypeofField j "limit" == "number")

/-- The destructured `tableId` after validation (always a string there). -/
def extractTableId (j : Json) : String :=
  match jsGet j "tableId" with
  | some (Json.str s) => s
  | _ => ""

/-- One `if (x) { params.x = x; }` step: the parameter is added exactly when
the destructured value is truthy (absent fields destructure to `undefined`,
which is falsy). -/
def paramEntry (j : Json) (k : String) : List (String × Json) :=
  match jsGet j k with
  | some v => if jsTruthy v then [(k, v)] else []
  | none => []

/-- The `params` object built on lines 137–149: `filter`, `sort`, `limit`
in that order, each included when truthy. -/
def buildParams (j : Json) : List (String × Json) :=
  paramEntry j "filter" ++ paramEntry j "sort" ++ paramEntry j "limit"

/-- The axios GET request of lines 152–164: url
`` `${baseUrl}/${encodeURIComponent(tableId)}/record` `` with the
`Authorization`/`Accept` headers and the params object. -/
def buildRequest (apiKey : Option String) (j : Json) : HttpRequest :=
  { method := "GET",
    url := "https://acdp.mountai.co/api/table" ++ "/" ++
      encodeURIComponent (extractTableId j) ++ "/record",
    headers :=
      [("Authorization", "Bearer " ++ renderOptString apiKey),
       ("Accept", "application/json")],
    queryParams := buildParams j,
    body := none }

/-- The `CallToolRequestSchema` handler (lines 115–192).  `apiKey` is the
value of `process.env.TEABLE_API_KEY`; `net` is what the one axios call would
produce.  The second component is the outbound request, `none` when the
handler throws before calling axios. -/
def handleCallTool (apiKey : Option String) (net : AxiosOutcome)
    (req : ToolRequest) : InvokeOutcome × Option HttpRequest :=
  if !(req.name == "query_teable") then
    (InvokeOutcome.mcpError
      { code := ErrorCode.MethodNotFound,
        message := "Unbekanntes Tool: " ++ req.name }, none)
  else if !(isValidQueryTeableArgs req.arguments) then
    (InvokeOutcome.mcpError
      { code := ErrorCode.InvalidParams,
        message := "Ungültige Argumente für query_teable" }, none)
  else
    let j := req.arguments.getD Json.null
    let tableId := extractTableId j
    let httpReq := buildRequest apiKey j
    match net with
    | AxiosOutcome.success data =>
      (InvokeOutcome.result
        { content :=
            [{ type := "text",
               text := "Daten erfolgreich aus Teable-Tabelle " ++ tableId ++
                 " abgefragt:\n" ++ jsonStringifyPretty data }],
          isError := none }, some httpReq)
    | AxiosOutcome.axiosError respData msg =>
      (InvokeOutcome.result
        { content :=
            [{ type := "text",
               text := "Fehler bei der Abfrage der Teable-Datenbank: " ++
                 (if optTruthy respData then
                   jsonStringify (respData.getD Json.null)
                 else msg) }],
          isError := some true }, some httpReq)
    | AxiosOutcome.otherError e =>
      (InvokeOutcome.thrown e, some httpReq)

end EnvVariant

/-! ### The fixed-configuration variant (`src/unnamed/part_000`) -/

namespace FixedVariant

/-- Hardcoded credential (line 20). -/
def TEABLE_API_KEY : String := "teable_XXX"

/-- Hardcoded table id (line 21). -/
def TABLE_ID : String := "tblXXX"

/-- The tool list of this variant (lines 78–104): same tool name, no
`tableId` property and no required field. -/
def listTools : List ToolDescriptor :=
  [{ name := "query_teable",
     description := "Fragt Daten aus einer Teable-Datenbanktabelle ab",
     inputSchema :=
       { type := "object",
         properties :=
           [{ name := "filter", type := "string",
              description := "Optional, Filterkriterien im JSON-Format",
              minimum := none },
            { name := "sort", type := "string",
              description := "Optional, Sortierkriterien im JSON-Format",
              minimum := none },
            { name := "limit", type := "number",
              description := "Optional, Maximale Anzahl der zurückgegebenen Datensätze",
              minimum := some 1 }],
         required := [] } }]

/-- The type guard of this variant (lines 33–43): no `tableId` conjunct. -/
def isValidQueryTeableArgs (args : Option Json) : Bool :=
  match args with
  | none => false
  | some j =>
    jsTypeof j == "object" &&
    !(jsIsNull j) &&
    (!(jsHasProp j "filter") || jsTypeofField j "filter" == "string") &&
    (!(jsHasProp j "sort") || jsTypeofField j "sort" == "string") &&
    (!(jsHasProp j "limit") || jsTypeofField j "limit" == "number")

/-- The axios GET request of lines 144–156: the url always targets the
hardcoded `TABLE_ID`. -/
def buildRequest (j : Json) : HttpRequest :=
  { method := "GET",
    url := "https://acdp.mountai.co/api/table" ++ "/" ++
      encodeURIComponent TABLE_ID ++ "/record",
    headers :=
      [("Authorization", "Bearer " ++ TEABLE_API_KEY),
       ("Accept", "application/json")],
    queryParams := EnvVariant.buildParams j,
    body := none }

/-- The `CallToolRequestSchema` handler of this variant (lines 107–184). -/
def handleCallTool (net : AxiosOutcome) (req : ToolRequest) :
    InvokeOutcome × Option HttpRequest :=
  if !(req.name == "query_teable") then
    (InvokeOutcome.mcpError
      { code := ErrorCode.MethodNotFound,
        message := "Unbekanntes Tool: " ++ req.name }, none)
  else if !(isValidQueryTeableArgs req.arguments) then
    (InvokeOutcome.mcpError
      { code := ErrorCode.InvalidParams,
        message := "Ungültige Argumente für query_teable" }, none)
  else
    let j := req.arguments.getD Json.null
    let httpReq := buildRequest j
    match net with
    | AxiosOutcome.success data =>
      (InvokeOutcome.result
        { content :=
            [{ type := "text",
               text := "Daten erfolgreich aus Teable-Tabelle " ++ TABLE_ID ++
                 " abgefragt:\n" ++ jsonStringifyPretty data }],
          isError := none }, some httpReq)
    | AxiosOutcome.axiosError respData msg =>
      (InvokeOutcome.result
        { content :=
            [{ type := "text",
               text := "Fehler bei der Abfrage der Teable-Datenbank: " ++
                 (if optTruthy respData then
                   jsonStringify (respData.getD Json.null)
                 else msg) }],
          isError := some true }, some httpReq)
    | AxiosOutcome.otherError e =>
      (InvokeOutcome.thrown e, some httpReq)

end FixedVariant

/-- The first header with the given name, if any. -/
def headerValue (r : HttpRequest) (k : String) : Option String :=
  (r.headers.find? (fun p => p.1 == k)).map Prod.snd

/-! ### The notification-send tool (modelled from the spec) -/

namespace NotifyModel

/-- Modelled from the spec: the validated arguments of the notification-send
tool.  Its source file is not under `src/`; the spec declares `channel` and
`message` required, with optional `title`, `priority` and `tags`
(array-of-string). -/
structure NotifyArgs where
  channel : String
  message : String
  title : Option String
  priority : Option Int
  tags : Option (List String)

/-- Modelled from the spec: the notification-send tool's remote call builder,
whose source file is not under `src/`.  Spec §4.3: "POST to
`<base>/<channelIdentifier>` with the message text as the raw request body;
optional `title`, `priority`, `tags` become individual request headers (tags
joined with a comma separator) only when present and, for `tags`, non-empty";
§6 names the base `https://ntfy.sh` and the headers `Title`, `Priority`,
`Tags`, with `Priority` rendered as the decimal string of the number. -/
def buildNotifyRequest (a : NotifyArgs) : HttpRequest :=
  { method := "POST",
    url := "https://ntfy.sh" ++ "/" ++ a.channel,
    headers :=
      (match a.title with
       | some t => [("Title", t)]
       | none => []) ++
      (match a.priority with
       | some p => [("Priority", toString p)]
       | none => []) ++
      (match a.tags with
       | some ts => if ts.isEmpty then [] else [("Tags", String.intercalate "," ts)]
       | none => []),
    queryParams := [],
    body := some a.message }

end NotifyModel

/-! ### Helper lemmas -/

theorem strContains_append_right (pre sub : String) : strContains (pre ++ sub) sub := by
  show sub.data <:+: pre.data ++ sub.data
  exact (List.suffix_append pre.data sub.data).isInfix

theorem jsHasProp_eq_isSome (j : Json) (k : String) :
    jsHasProp j k = (jsGet j k).isSome := by
  cases j with
  | obj fields =>
    show fields.any (fun p => p.1 == k) = ((fields.find? (fun p => p.1 == k)).map Prod.snd).isSome
    induction fields with
    | nil => rfl
    | cons hd tl ih =>
      by_cases h : (hd.1 == k) = true
      · simp [List.any_cons, List.find?_cons, h]
      · simp only [Bool.not_eq_true] at h
        simp [List.any_cons, List.find?_cons, h, ih]
  | null => rfl
  | bool b => rfl
  | num n => rfl
  | str s => rfl
  | arr elems => rfl

theorem jsTypeof_eq_string_iff (v : Json) :
    jsTypeof v = "string" ↔ ∃ s, v = Json.str s := by
  cases v <;> simp [jsTypeof]

theorem jsTypeof_eq_number_iff (v : Json) :
    jsTypeof v = "number" ↔ ∃ n, v = Json.num n := by
  cases v <;> simp [jsTypeof]

/-! ### The claims -/

/-- C1: in the env-configured variant, an invocation of `query_teable` whose
arguments fail the validator is answered by throwing `McpError` with code
`InvalidParams`, and no outbound HTTP call is performed, whatever the network
would have returned. -/
theorem invalid_args_invalidParams_no_network_call (apiKey : Option String)
    (net : AxiosOutcome) (args : Option Json)
    (h : EnvVariant.isValidQueryTeableArgs args = false) :
    EnvVariant.handleCallTool apiKey net { name := "query_teable", arguments := args } =
      (InvokeOutcome.mcpError
        { code := ErrorCode.InvalidParams,
          message := "Ungültige Argumente für query_teable" }, none) := by
  simp [EnvVariant.handleCallTool, h]

/-- Witness for C1 at a concrete input: arguments missing the required
`tableId` are rejected with `InvalidParams` and no request is built. -/
theorem invalid_args_invalidParams_no_network_call_witness :
    EnvVariant.handleCallTool none (AxiosOutcome.success Json.null)
      { name := "query_teable", arguments := some (Json.obj []) } =
      (InvokeOutcome.mcpError
        { code := ErrorCode.InvalidParams,
          message := "Ungültige Argumente für query_teable" }, none) :=
  invalid_args_invalidParams_no_network_call none (AxiosOutcome.success Json.null)
    (some (Json.obj [])) (by decide)

/-- C2: in both variants, an invocation whose tool name is not
`query_teable` is answered by throwing `McpError` with code `MethodNotFound`
and no outbound HTTP call; the tool list of each variant has exactly one
descriptor, named `query_teable`; and an invocation of that name never
produces a `MethodNotFound` error. -/
theorem unknown_tool_methodNotFound_single_descriptor
    (apiKey : Option String) (net net2 : AxiosOutcome) (req req2 : ToolRequest)
    (h : req.name ≠ "query_teable") (h2 : req2.name ≠ "query_teable") :
    EnvVariant.handleCallTool apiKey net req =
      (InvokeOutcome.mcpError
        { code := ErrorCode.MethodNotFound,
          message := "Unbekanntes Tool: " ++ req.name }, none) ∧
    FixedVariant.handleCallTool net2 req2 =
      (InvokeOutcome.mcpError
        { code := ErrorCode.MethodNotFound,
          message := "Unbekanntes Tool: " ++ req2.name }, none) ∧
    EnvVariant.listTools.map ToolDescriptor.name = ["query_teable"] ∧
    FixedVariant.listTools.map ToolDescriptor.name = ["query_teable"] ∧
    (∀ (k : Option String) (n : AxiosOutcome) (a : Option Json) (e : McpError),
      (EnvVariant.handleCallTool k n { name := "query_teable", arguments := a }).1 =
        InvokeOutcome.mcpError e → e.code ≠ ErrorCode.MethodNotFound) := by
  refine ⟨?_, ?_, rfl, rfl, ?_⟩
  · simp [EnvVariant.handleCallTool, h]
  · simp [FixedVariant.handleCallTool, h2]
  · intro k n a e he
    by_cases hv : EnvVariant.isValidQueryTeableArgs a = true
    · cases n <;> simp [EnvVariant.handleCallTool, hv] at he
    · simp only [Bool.not_eq_true] at hv
      simp [EnvVariant.handleCallTool, hv] at he
      rw [← he]
      decide

/-- Witness for C2 at a concrete input: the tool name `other` is rejected
with `MethodNotFound` in both variants. -/
theorem unknown_tool_methodNotFound_single_descriptor_witness :
    EnvVariant.handleCallTool none (AxiosOutcome.success Json.null)
      { name := "other", arguments := none } =
      (InvokeOutcome.mcpError
        { code := ErrorCode.MethodNotFound,
          message := "Unbekanntes Tool: other" }, none) :=
  (unknown_tool_methodNotFound_single_descriptor none (AxiosOutcome.success Json.null)
    (AxiosOutcome.success Json.null) { name := "other", arguments := none }
    { name := "other", arguments := none } (by decide) (by decide)).1

theorem required_string_field_iff (j : Json) (k : String) :
    (jsHasProp j k = true ∧ jsTypeofField j k = "string") ↔
      ∃ s, jsGet j k = some (Json.str s) := by
  rw [jsHasProp_eq_isSome]
  unfold jsTypeofField
  cases hg : jsGet j k with
  | none => simp
  | some v =>
    simp only [Option.isSome_some, true_and, Option.some.injEq]
    constructor
    · intro h
      rcases (jsTypeof_eq_string_iff v).mp h with ⟨s, rfl⟩
      exact ⟨s, rfl⟩
    · rintro ⟨s, rfl⟩
      rfl

theorem optional_string_field_iff (j : Json) (k : String) :
    (jsHasProp j k = false ∨ jsTypeofField j k = "string") ↔
      ∀ v, jsGet j k = some v → ∃ s, v = Json.str s := by
  rw [jsHasProp_eq_isSome]
  unfold jsTypeofField
  cases hg : jsGet j k with
  | none => simp
  | some v =>
    simp only [Option.isSome_some, Bool.true_eq_false, false_or, Option.some.injEq]
    constructor
    · intro h v2 hv2
      subst hv2
      exact (jsTypeof_eq_string_iff v).mp h
    · intro h
      exact (jsTypeof_eq_string_iff v).mpr (h v rfl)

theorem optional_number_field_iff (j : Json) (k : String) :
    (jsHasProp j k = false ∨ jsTypeofField j k = "number") ↔
      ∀ v, jsGet j k = some v → ∃ n, v = Json.num n := by
  rw [jsHasProp_eq_isSome]
  unfold jsTypeofField
  cases hg : jsGet j k with
  | none => simp
  | some v =>
    simp only [Option.isSome_some, Bool.true_eq_false, false_or, Option.some.injEq]
    constructor
    · intro h v2 hv2
      subst hv2
      exact (jsTypeof_eq_number_iff v).mp h
    · intro h
      exact (jsTypeof_eq_number_iff v).mpr (h v rfl)

/-- C6: the type guards are total boolean functions.  The env-configured
guard accepts exactly the defined, non-null values of JS type `object` whose
`tableId` property is a string and whose present `filter`/`sort` properties
are strings and present `limit` property is a number; the
fixed-configuration guard is the same without the `tableId` requirement.  On
success the handler's destructured view reads the very same property values
(in particular the extracted `tableId` is the stored string). -/
theorem validator_characterization :
    (∀ (args : Option Json),
      EnvVariant.isValidQueryTeableArgs args = true ↔
      ∃ j, args = some j ∧ jsTypeof j = "object" ∧ jsIsNull j = false ∧
        (∃ s, jsGet j "tableId" = some (Json.str s)) ∧
        (∀ v, jsGet j "filter" = some v → ∃ s, v = Json.str s) ∧
        (∀ v, jsGet j "sort" = some v → ∃ s, v = Json.str s) ∧
        (∀ v, jsGet j "limit" = some v → ∃ n, v = Json.num n)) ∧
    (∀ (args : Option Json),
      FixedVariant.isValidQueryTeableArgs args = true ↔
      ∃ j, args = some j ∧ jsTypeof j = "object" ∧ jsIsNull j = false ∧
        (∀ v, jsGet j "filter" = some v → ∃ s, v = Json.str s) ∧
        (∀ v, jsGet j "sort" = some v → ∃ s, v = Json.str s) ∧
        (∀ v, jsGet j "limit" = some v → ∃ n, v = Json.num n)) ∧
    (∀ (j : Json) (s : String), jsGet j "tableId" = some (Json.str s) →
      EnvVariant.extractTableId j = s) := by
  refine ⟨?_, ?_, ?_⟩
  · intro args
    cases args with
    | none => simp [EnvVariant.isValidQueryTeableArgs]
    | some j =>
      simp only [EnvVariant.isValidQueryTeableArgs, Bool.and_eq_true, beq_iff_eq,
        Bool.not_eq_true', Bool.or_eq_true, Option.some.injEq, exists_eq_left']
      rw [required_string_field_iff, optional_string_field_iff,
        optional_string_field_iff, optional_number_field_iff]
      tauto
  · intro args
    cases args with
    | none => simp [FixedVariant.isValidQueryTeableArgs]
    | some j =>
      simp only [FixedVariant.isValidQueryTeableArgs, Bool.and_eq_true, beq_iff_eq,
        Bool.not_eq_true', Bool.or_eq_true, Option.some.injEq, exists_eq_left']
      rw [optional_string_field_iff, optional_string_field_iff,
        optional_number_field_iff]
      tauto
  · intro j s h
    unfold EnvVariant.extractTableId
    rw [h]

/-- Witness for C6 at concrete inputs, applying the characterization in both
directions: arguments with a string `tableId` validate, and a `limit` given
as a string makes the env-configured validator fail. -/
theorem validator_characterization_witness :
    EnvVariant.isValidQueryTeableArgs
      (some (Json.obj [("tableId", Json.str "t")])) = true ∧
    ¬ EnvVariant.isValidQueryTeableArgs
      (some (Json.obj [("tableId", Json.str "t"), ("limit", Json.str "five")])) = true := by
  constructor
  · exact (validator_characterization.1 _).mpr
      ⟨Json.obj [("tableId", Json.str "t")], rfl, rfl, rfl, ⟨"t", rfl⟩,
        (by intro v hv; cases hv), (by intro v hv; cases hv), (by intro v hv; cases hv)⟩
  · intro h
    rcases (validator_characterization.1 _).mp h with ⟨j, hj, _, _, _, _, _, hlim⟩
    cases hj
    rcases hlim (Json.str "five") rfl with ⟨n, hn⟩
    cases hn

theorem mem_paramEntry_iff (j : Json) (k k2 : String) (v : Json) :
    (k2, v) ∈ EnvVariant.paramEntry j k ↔
      (k2 = k ∧ jsGet j k = some v ∧ jsTruthy v = true) := by
  unfold EnvVariant.paramEntry
  cases hg : jsGet j k with
  | none => simp
  | some w =>
    by_cases hw : jsTruthy w = true
    · simp only [hw, if_true, List.mem_singleton, Prod.mk.injEq, Option.some.injEq]
      constructor
      · rintro ⟨rfl, rfl⟩
        exact ⟨rfl, rfl, hw⟩
      · rintro ⟨rfl, rfl, _⟩
        exact ⟨rfl, rfl⟩
    · simp only [Bool.not_eq_true] at hw
      simp only [hw, Bool.false_eq_true, if_false, List.not_mem_nil, false_iff]
      rintro ⟨rfl, hv, ht⟩
      cases hv
      rw [hw] at ht
      exact Bool.false_ne_true ht

set_option maxRecDepth 4000 in
/-- C5 fails as stated: `filter` is present in the arguments (with value
`""`, a valid string), yet the outbound request carries no `filter` query
parameter, because the source adds each parameter under a JavaScript
truthiness test (`if (filter)`), which drops empty strings (and a `limit`
of 0). -/
theorem query_param_empty_string_omitted_counterexample :
    jsHasProp (Json.obj [("tableId", Json.str "t"), ("filter", Json.str "")]) "filter" = true ∧
    EnvVariant.isValidQueryTeableArgs
      (some (Json.obj [("tableId", Json.str "t"), ("filter", Json.str "")])) = true ∧
    (EnvVariant.handleCallTool (some "key") (AxiosOutcome.success Json.null)
        { name := "query_teable",
          arguments := some (Json.obj [("tableId", Json.str "t"), ("filter", Json.str "")]) }).2 =
      some
        { method := "GET",
          url := "https://acdp.mountai.co/api/table/t/record",
          headers :=
            [("Authorization", "Bearer key"), ("Accept", "application/json")],
          queryParams := [],
          body := none } :=
  ⟨rfl, rfl, rfl⟩

/-- C5 (amended): for every validated invocation, each of `filter`, `sort`
and `limit` appears as a query parameter of the outbound GET request exactly
when the field is present in the arguments with a JS-truthy value (for the
strings: non-empty; for `limit`: non-zero), with its value unchanged; fields
that are absent or falsy are omitted, and the request carries the
`Authorization: Bearer <token>` and `Accept: application/json` headers. -/
theorem query_params_truthy_fields_and_headers (apiKey : Option String)
    (net : AxiosOutcome) (j : Json)
    (hv : EnvVariant.isValidQueryTeableArgs (some j) = true) :
    ∃ r, (EnvVariant.handleCallTool apiKey net
        { name := "query_teable", arguments := some j }).2 = some r ∧
      r.method = "GET" ∧
      r.headers =
        [("Authorization", "Bearer " ++ renderOptString apiKey),
         ("Accept", "application/json")] ∧
      (∀ k v, (k, v) ∈ r.queryParams ↔
        ((k = "filter" ∨ k = "sort" ∨ k = "limit") ∧
          jsGet j k = some v ∧ jsTruthy v = true)) := by
  refine ⟨EnvVariant.buildRequest apiKey j, ?_, rfl, rfl, ?_⟩
  · cases net <;> simp [EnvVariant.handleCallTool, hv]
  · intro k v
    show (k, v) ∈ EnvVariant.buildParams j ↔ _
    unfold EnvVariant.buildParams
    simp only [List.mem_append, mem_paramEntry_iff]
    constructor
    · rintro ((⟨rfl, h⟩ | ⟨rfl, h⟩) | ⟨rfl, h⟩)
      · exact ⟨Or.inl rfl, h⟩
      · exact ⟨Or.inr (Or.inl rfl), h⟩
      · exact ⟨Or.inr (Or.inr rfl), h⟩
    · rintro ⟨(rfl | rfl | rfl), h⟩
      · exact Or.inl (Or.inl ⟨rfl, h⟩)
      · exact Or.inl (Or.inr ⟨rfl, h⟩)
      · exact Or.inr ⟨rfl, h⟩

/-- Witness for C5 (amended) at a concrete input: a non-empty `filter` and a
positive `limit` appear as query parameters with their values; the headers
are as stated. -/
theorem query_params_truthy_fields_and_headers_witness :
    ∃ r, (EnvVariant.handleCallTool (some "key") (AxiosOutcome.success Json.null)
        { name := "query_teable",
          arguments := some (Json.obj
            [("tableId", Json.str "t"), ("filter", Json.str "f"),
             ("limit", Json.num 5)]) }).2 = some r ∧
      r.method = "GET" ∧
      r.headers =
        [("Authorization", "Bearer " ++ renderOptString (some "key")),
         ("Accept", "application/json")] ∧
      (∀ k v, (k, v) ∈ r.queryParams ↔
        ((k = "filter" ∨ k = "sort" ∨ k = "limit") ∧
          jsGet (Json.obj
            [("tableId", Json.str "t"), ("filter", Json.str "f"),
             ("limit", Json.num 5)]) k = some v ∧ jsTruthy v = true)) :=
  query_params_truthy_fields_and_headers (some "key") (AxiosOutcome.success Json.null)
    (Json.obj
      [("tableId", Json.str "t"), ("filter", Json.str "f"),
       ("limit", Json.num 5)]) (by decide)

/-- C7: in the env-configured variant, a thrown value that is not an axios
error (`axios.isAxiosError` false) is rethrown unchanged by the call handler
rather than wrapped into a tool result. -/
theorem non_axios_error_propagates (apiKey : Option String) (args : Option Json)
    (e : String) (hv : EnvVariant.isValidQueryTeableArgs args = true) :
    (EnvVariant.handleCallTool apiKey (AxiosOutcome.otherError e)
      { name := "query_teable", arguments := args }).1 = InvokeOutcome.thrown e := by
  simp [EnvVariant.handleCallTool, hv]

set_option maxRecDepth 4000 in
/-- C3 fails as stated: here the axios error carries a response body (the
empty string, whose JSON serialization is `""`), yet the produced text is the
generic error message and does not contain that serialization, because the
source selects the body with a JavaScript truthiness test
(`error.response?.data ? ... : error.message`), not a presence test. -/
theorem http_failure_falsy_body_counterexample :
    (EnvVariant.handleCallTool (some "key")
        (AxiosOutcome.axiosError (some (Json.str "")) "Request failed with status code 404")
        { name := "query_teable",
          arguments := some (Json.obj [("tableId", Json.str "t")]) }).1 =
      InvokeOutcome.result
        { content :=
            [{ type := "text",
               text := "Fehler bei der Abfrage der Teable-Datenbank: Request failed with status code 404" }],
          isError := some true } ∧
    ¬ strContains
        "Fehler bei der Abfrage der Teable-Datenbank: Request failed with status code 404"
        (jsonStringify (Json.str "")) := by
  exact ⟨rfl, by decide⟩

/-- C3 (amended): on an axios failure the handler returns (does not throw) a
tool result with `isError = true` and exactly one text block; the text
contains the JSON-serialized remote error body when the error carries a
JS-truthy response body, and otherwise (no body, or a falsy body) falls back
to the generic error message. -/
theorem http_failure_toolResult_error_text (apiKey : Option String)
    (args : Option Json) (respData : Option Json) (msg : String)
    (hv : EnvVariant.isValidQueryTeableArgs args = true) :
    (EnvVariant.handleCallTool apiKey (AxiosOutcome.axiosError respData msg)
        { name := "query_teable", arguments := args }).1 =
      InvokeOutcome.result
        { content :=
            [{ type := "text",
               text := "Fehler bei der Abfrage der Teable-Datenbank: " ++
                 (if optTruthy respData then
                   jsonStringify (respData.getD Json.null)
                 else msg) }],
          isError := some true } ∧
    (optTruthy respData = true →
      strContains
        ("Fehler bei der Abfrage der Teable-Datenbank: " ++
          (if optTruthy respData then jsonStringify (respData.getD Json.null) else msg))
        (jsonStringify (respData.getD Json.null))) ∧
    (optTruthy respData = false →
      strContains
        ("Fehler bei der Abfrage der Teable-Datenbank: " ++
          (if optTruthy respData then jsonStringify (respData.getD Json.null) else msg))
        msg) := by
  refine ⟨?_, ?_, ?_⟩
  · simp [EnvVariant.handleCallTool, hv]
  · intro ht
    rw [ht]
    simp only [if_true]
    exact strContains_append_right _ _
  · intro hf
    rw [hf]
    simp only [Bool.false_eq_true, if_false]
    exact strContains_append_right _ _

/-- Witness for C3 (amended) at a concrete input: a 404 with body
`{"error":"not found"}` yields `isError = true` and a text containing the
serialized body. -/
theorem http_failure_toolResult_error_text_witness :
    (EnvVariant.handleCallTool (some "key")
        (AxiosOutcome.axiosError (some (Json.obj [("error", Json.str "not found")]))
          "Request failed with status code 404")
        { name := "query_teable",
          arguments := some (Json.obj [("tableId", Json.str "t")]) }).1 =
      InvokeOutcome.result
        { content :=
            [{ type := "text",
               text := "Fehler bei der Abfrage der Teable-Datenbank: " ++
                 (if optTruthy (some (Json.obj [("error", Json.str "not found")])) then
                   jsonStringify ((some (Json.obj [("error", Json.str "not found")])).getD Json.null)
                 else "Request failed with status code 404") }],
          isError := some true } ∧
    strContains
      ("Fehler bei der Abfrage der Teable-Datenbank: " ++
        (if optTruthy (some (Json.obj [("error", Json.str "not found")])) then
          jsonStringify ((some (Json.obj [("error", Json.str "not found")])).getD Json.null)
        else "Request failed with status code 404"))
      (jsonStringify (Json.obj [("error", Json.str "not found")])) := by
  have h := http_failure_toolResult_error_text (some "key")
    (some (Json.obj [("tableId", Json.str "t")]))
    (some (Json.obj [("error", Json.str "not found")]))
    "Request failed with status code 404" (by decide)
  exact ⟨h.1, h.2.1 (by decide)⟩

/-- C4: on a 2xx response the handler returns a tool result whose `isError`
field is absent (read as false by MCP) with exactly one text block, and the
text contains the pretty-printed (`JSON.stringify(data, null, 2)`) response
body as a substring. -/
theorem http_success_toolResult_contains_body (apiKey : Option String)
    (args : Option Json) (data : Json)
    (hv : EnvVariant.isValidQueryTeableArgs args = true) :
    (EnvVariant.handleCallTool apiKey (AxiosOutcome.success data)
        { name := "query_teable", arguments := args }).1 =
      InvokeOutcome.result
        { content :=
            [{ type := "text",
               text := "Daten erfolgreich aus Teable-Tabelle " ++
                 EnvVariant.extractTableId (args.getD Json.null) ++ " abgefragt:\n" ++
                 jsonStringifyPretty data }],
          isError := none } ∧
    strContains
      ("Daten erfolgreich aus Teable-Tabelle " ++
        EnvVariant.extractTableId (args.getD Json.null) ++ " abgefragt:\n" ++
        jsonStringifyPretty data)
      (jsonStringifyPretty data) := by
  refine ⟨?_, strContains_append_right _ _⟩
  simp [EnvVariant.handleCallTool, hv]

/-- Witness for C4 at a concrete input: a 200 with body `{"records":[]}`. -/
theorem http_success_toolResult_contains_body_witness :
    (EnvVariant.handleCallTool (some "key")
        (AxiosOutcome.success (Json.obj [("records", Json.arr [])]))
        { name := "query_teable",
          arguments := some (Json.obj [("tableId", Json.str "t")]) }).1 =
      InvokeOutcome.result
        { content :=
            [{ type := "text",
               text := "Daten erfolgreich aus Teable-Tabelle " ++
                 EnvVariant.extractTableId
                   ((some (Json.obj [("tableId", Json.str "t")])).getD Json.null) ++
                 " abgefragt:\n" ++
                 jsonStringifyPretty (Json.obj [("records", Json.arr [])]) }],
          isError := none } ∧
    strContains
      ("Daten erfolgreich aus Teable-Tabelle " ++
        EnvVariant.extractTableId
          ((some (Json.obj [("tableId", Json.str "t")])).getD Json.null) ++
        " abgefragt:\n" ++ jsonStringifyPretty (Json.obj [("records", Json.arr [])]))
      (jsonStringifyPretty (Json.obj [("records", Json.arr [])])) :=
  http_success_toolResult_contains_body (some "key")
    (some (Json.obj [("tableId", Json.str "t")]))
    (Json.obj [("records", Json.arr [])]) (by decide)

/-- Witness for C7 at a concrete input. -/
theorem non_axios_error_propagates_witness :
    (EnvVariant.handleCallTool none (AxiosOutcome.otherError "TypeError: boom")
      { name := "query_teable",
        arguments := some (Json.obj [("tableId", Json.str "t")]) }).1 =
      InvokeOutcome.thrown "TypeError: boom" :=
  non_axios_error_propagates none (some (Json.obj [("tableId", Json.str "t")]))
    "TypeError: boom" (by decide)

/-- C8 (the notification server's source is not under `src/`, so this is
settled against the spec-modelled builder): a non-empty `tags` list produces
a `Tags` header equal to the tags joined with a comma separator; an empty or
absent `tags` produces no `Tags` header. -/
theorem notify_tags_header (a : NotifyModel.NotifyArgs) :
    (∀ ts, a.tags = some ts → ts ≠ [] →
      headerValue (NotifyModel.buildNotifyRequest a) "Tags" =
        some (String.intercalate "," ts)) ∧
    ((a.tags = some [] ∨ a.tags = none) →
      headerValue (NotifyModel.buildNotifyRequest a) "Tags" = none) := by
  obtain ⟨ch, msg, title, prio, tags⟩ := a
  constructor
  · rintro ts rfl hne
    cases ts with
    | nil => exact absurd rfl hne
    | cons t ts2 =>
      cases title <;> cases prio <;>
        simp [headerValue, NotifyModel.buildNotifyRequest]
  · rintro (rfl | rfl) <;> cases title <;> cases prio <;>
      simp [headerValue, NotifyModel.buildNotifyRequest]

/-- Witness for C8 at a concrete input: `tags = ["a","b"]` gives a `Tags`
header of `"a,b"`, and `tags = []` gives none. -/
theorem notify_tags_header_witness :
    headerValue
      (NotifyModel.buildNotifyRequest
        { channel := "ch", message := "hello", title := none, priority := none,
          tags := some ["a", "b"] }) "Tags" = some "a,b" ∧
    headerValue
      (NotifyModel.buildNotifyRequest
        { channel := "ch", message := "hello", title := none, priority := none,
          tags := some [] }) "Tags" = none :=
  ⟨(notify_tags_header
      { channel := "ch", message := "hello", title := none, priority := none,
        tags := some ["a", "b"] }).1 ["a", "b"] rfl (by decide),
   (notify_tags_header
      { channel := "ch", message := "hello", title := none, priority := none,
        tags := some [] }).2 (Or.inl rfl)⟩

theorem hexDigitUpper_not_bad (m : Nat) (h : m < 16) :
    hexDigitUpper m ≠ '/' ∧ hexDigitUpper m ≠ '?' ∧ hexDigitUpper m ≠ '#' := by
  interval_cases m <;> exact (by decide)

theorem percentByte_not_bad (b : Nat) :
    ∀ c ∈ percentByte b, c ≠ '/' ∧ c ≠ '?' ∧ c ≠ '#' := by
  intro c hc
  unfold percentByte at hc
  rcases List.mem_cons.mp hc with rfl | hc2
  · exact (by decide)
  rcases List.mem_cons.mp hc2 with rfl | hc3
  · exact hexDigitUpper_not_bad _ (Nat.mod_lt _ (by norm_num))
  rcases List.mem_cons.mp hc3 with rfl | hc4
  · exact hexDigitUpper_not_bad _ (Nat.mod_lt _ (by norm_num))
  · exact absurd hc4 (List.not_mem_nil c)

theorem encodeUriChar_not_bad (c : Char) :
    ∀ c2 ∈ encodeUriChar c, c2 ≠ '/' ∧ c2 ≠ '?' ∧ c2 ≠ '#' := by
  intro c2 h
  unfold encodeUriChar at h
  by_cases hu : isUriUnescaped c = true
  · rw [if_pos hu] at h
    rcases List.mem_singleton.mp h with rfl
    refine ⟨?_, ?_, ?_⟩ <;> rintro rfl <;> exact absurd hu (by decide)
  · rw [if_neg hu] at h
    rcases List.mem_flatMap.mp h with ⟨b, _, hc2⟩
    exact percentByte_not_bad b c2 hc2

theorem encodeURIComponent_not_bad (s : String) :
    ∀ c ∈ (encodeURIComponent s).data, c ≠ '/' ∧ c ≠ '?' ∧ c ≠ '#' := by
  intro c hc
  rcases List.mem_flatMap.mp hc with ⟨a, _, hc2⟩
  exact encodeUriChar_not_bad a c hc2

/-- C9: in the env-configured variant the outbound URL is exactly
`https://acdp.mountai.co/api/table/` ++ `encodeURIComponent tableId` ++
`/record`, and the encoded component never contains `/`, `?` or `#`, so no
`tableId` value can alter the path structure or inject query parameters. -/
theorem env_url_percent_encoding (apiKey : Option String) (net : AxiosOutcome)
    (j : Json) (tableId : String)
    (hv : EnvVariant.isValidQueryTeableArgs (some j) = true)
    (ht : jsGet j "tableId" = some (Json.str tableId)) :
    ∃ r, (EnvVariant.handleCallTool apiKey net
        { name := "query_teable", arguments := some j }).2 = some r ∧
      r.url = "https://acdp.mountai.co/api/table/" ++
        encodeURIComponent tableId ++ "/record" ∧
      ∀ c ∈ (encodeURIComponent tableId).data, c ≠ '/' ∧ c ≠ '?' ∧ c ≠ '#' := by
  refine ⟨EnvVariant.buildRequest apiKey j, ?_, ?_, encodeURIComponent_not_bad tableId⟩
  · cases net <;> simp [EnvVariant.handleCallTool, hv]
  · show "https://acdp.mountai.co/api/table" ++ "/" ++
      encodeURIComponent (EnvVariant.extractTableId j) ++ "/record" = _
    unfold EnvVariant.extractTableId
    rw [ht]
    rfl

/-- Witness for C9 at a concrete input: a `tableId` containing `/`, `?` and
`#` is fully percent-encoded. -/
theorem env_url_percent_encoding_witness :
    ∃ r, (EnvVariant.handleCallTool (some "key") (AxiosOutcome.success Json.null)
        { name := "query_teable",
          arguments := some (Json.obj [("tableId", Json.str "a/b?c#d")]) }).2 = some r ∧
      r.url = "https://acdp.mountai.co/api/table/" ++
        encodeURIComponent "a/b?c#d" ++ "/record" ∧
      ∀ c ∈ (encodeURIComponent "a/b?c#d").data, c ≠ '/' ∧ c ≠ '?' ∧ c ≠ '#' :=
  env_url_percent_encoding (some "key") (AxiosOutcome.success Json.null)
    (Json.obj [("tableId", Json.str "a/b?c#d")]) "a/b?c#d" (by decide) rfl

set_option maxRecDepth 4000 in
/-- C10: in the fixed-configuration variant the empty object validates (no
required fields) and the outbound URL always targets the hardcoded
`TABLE_ID`; any two validated argument objects that agree on `filter`,
`sort` and `limit` produce the same outbound request, whatever their other
fields (e.g. a caller-supplied `tableId`) say. -/
theorem fixed_variant_request_independent_of_extra_fields :
    FixedVariant.isValidQueryTeableArgs (some (Json.obj [])) = true ∧
    (∀ (net : AxiosOutcome) (j : Json),
      FixedVariant.isValidQueryTeableArgs (some j) = true →
      ∃ r, (FixedVariant.handleCallTool net
          { name := "query_teable", arguments := some j }).2 = some r ∧
        r.url = "https://acdp.mountai.co/api/table/" ++
          encodeURIComponent FixedVariant.TABLE_ID ++ "/record") ∧
    (∀ (net net2 : AxiosOutcome) (a b : Json),
      FixedVariant.isValidQueryTeableArgs (some a) = true →
      FixedVariant.isValidQueryTeableArgs (some b) = true →
      jsGet a "filter" = jsGet b "filter" →
      jsGet a "sort" = jsGet b "sort" →
      jsGet a "limit" = jsGet b "limit" →
      (FixedVariant.handleCallTool net
        { name := "query_teable", arguments := some a }).2 =
      (FixedVariant.handleCallTool net2
        { name := "query_teable", arguments := some b }).2) := by
  refine ⟨rfl, ?_, ?_⟩
  · intro net j hv
    refine ⟨FixedVariant.buildRequest j, ?_, rfl⟩
    cases net <;> simp [FixedVariant.handleCallTool, hv]
  · intro net net2 a b hva hvb h1 h2 h3
    have hreq : FixedVariant.buildRequest a = FixedVariant.buildRequest b := by
      unfold FixedVariant.buildRequest EnvVariant.buildParams EnvVariant.paramEntry
      rw [h1, h2, h3]
    cases net <;> cases net2 <;>
      simp [FixedVariant.handleCallTool, hva, hvb, hreq]

/-- Witness for C10 at concrete inputs: an argument object carrying an extra
`tableId` field and the empty object produce identical outbound requests. -/
theorem fixed_variant_request_independent_of_extra_fields_witness :
    (FixedVariant.handleCallTool (AxiosOutcome.success Json.null)
      { name := "query_teable",
        arguments := some (Json.obj [("tableId", Json.str "victim")]) }).2 =
    (FixedVariant.handleCallTool (AxiosOutcome.success Json.null)
      { name := "query_teable", arguments := some (Json.obj []) }).2 :=
  fixed_variant_request_independent_of_extra_fields.2.2
    (AxiosOutcome.success Json.null) (AxiosOutcome.success Json.null)
    (Json.obj [("tableId", Json.str "victim")]) (Json.obj [])
    (by decide) (by decide) rfl rfl rfl

end TeableMCP
